import Mathlib

/-!
Verification of the drive-webhook worker core (token manager, watch-channel
manager, webhook processor, change fetcher) against its specification.

The TypeScript source is shallowly embedded: the Cloudflare KV namespace
becomes an association list of entries with optional expiry, JS numbers
stored as strings become `Nat` values serialized through an explicit
decimal printer/parser pair (`numStr` / `jsNum`, modelling `toString` and
`Number(...)`), outbound HTTP calls are parameters describing the remote
response, and `Date.now()` is an explicit clock threaded through each
function.  JS truthiness on strings (empty string is falsy) is modelled
explicitly wherever the source relies on it.
-/

set_option autoImplicit false
set_option linter.unusedVariables false
set_option linter.unreachableTactic false
set_option linter.unnecessarySeqFocus false
set_option linter.unusedTactic false

namespace DriveWebhook

/-! ## Decimal strings: model of JS `Number(...)` and `Number.prototype.toString` -/

/-- Character for a single decimal digit. -/
def digitChar (d : Nat) : Char :=
  match d with
  | 0 => '0'
  | 1 => '1'
  | 2 => '2'
  | 3 => '3'
  | 4 => '4'
  | 5 => '5'
  | 6 => '6'
  | 7 => '7'
  | 8 => '8'
  | 9 => '9'
  | _ => '*'

/-- Fuel-driven digit accumulator for the decimal printer. -/
def natCharsAux : Nat → Nat → List Char → List Char
  | 0, _, acc => acc
  | fuel+1, n, acc =>
    if n < 10 then digitChar (n % 10) :: acc
    else natCharsAux fuel (n / 10) (digitChar (n % 10) :: acc)

/-- Decimal digit list of a natural number, most significant first. -/
def natChars (n : Nat) : List Char := natCharsAux (n + 1) n []

/-- Model of JS number-to-string conversion for the naturals stored in KV. -/
def numStr (n : Nat) : String := String.mk (natChars n)

/-- One step of decimal parsing. -/
def parseStep (a : Nat) (c : Char) : Nat := a * 10 + (c.toNat - 48)

/-- Model of JS `Number(s)` restricted to the values the worker stores:
`Number("") = 0`, digit strings parse as decimal, anything else is NaN
(represented as `none`; every NaN comparison in the source is `false`). -/
def jsNum (s : String) : Option Nat :=
  if s.data = [] then some 0
  else if s.data.all Char.isDigit then some (s.data.foldl parseStep 0)
  else none

/-- Model of `Number(x ?? 0)` applied to a KV read. -/
def jsNumOrZero : Option String → Option Nat
  | none => some 0
  | some s => jsNum s

/-! ## The Cloudflare KV namespace (`env.drive_kv`)

One string value per string key, with optional per-entry expiry
(`expirationTtl`).  `kvGet` takes the current clock so that expired lock
entries vanish exactly as they do in the real store. -/

/-- One KV entry: key, value, and optional absolute expiry (epoch ms). -/
structure Entry where
  key : String
  val : String
  expiresAt : Option Nat
deriving DecidableEq

/-- The whole namespace: later entries are shadowed by earlier ones. -/
abbrev KV := List Entry

/-- Model of `drive_kv.get(k)` at clock `now`. -/
def kvGet (now : Nat) : KV → String → Option String
  | [], _ => none
  | e :: rest, k =>
    if e.key = k then
      match e.expiresAt with
      | none => some e.val
      | some t => if now < t then some e.val else none
    else kvGet now rest k

/-- Remove every entry with the given key. -/
def kvRemove : KV → String → KV
  | [], _ => []
  | e :: rest, k => if e.key = k then kvRemove rest k else e :: kvRemove rest k

/-- Model of `drive_kv.put(k, v)`, optionally with `expirationTtl`. -/
def kvPut (kv : KV) (k v : String) (exp : Option Nat) : KV :=
  ⟨k, v, exp⟩ :: kvRemove kv k

/-- Model of `drive_kv.delete(k)`. -/
def kvDelete (kv : KV) (k : String) : KV := kvRemove kv k

/-! ## Small utilities shared by the handlers -/

/-- JS truthiness of a nullable string: `null`, `undefined` and `""` are falsy. -/
def optTruthy : Option String → Bool
  | none => false
  | some s => !(s == "")

/-- Model of JS `String.prototype.startsWith`. -/
def jsStartsWith (s p : String) : Bool := List.isPrefixOf p.data s.data

/-- Whether `sub` occurs at some position of `l`. -/
def hasSubstrList : List Char → List Char → Bool
  | [], sub => List.isPrefixOf sub []
  | c :: rest, sub => List.isPrefixOf sub (c :: rest) || hasSubstrList rest sub

/-- Whether `sub` occurs somewhere in `s` (used for `toContain`-style checks). -/
def hasSubstr (s sub : String) : Bool := hasSubstrList s.data sub.data

/-- Model of `getOrUpdateKV(kv, key, value)` from `src/helper.ts`: a truthy
`value` (non-empty string) is written and echoed back; otherwise the stored
value (or `null`) is returned and the store is untouched. -/
def getOrUpdateKV (now : Nat) (kv : KV) (key : String) (value : Option String) :
    Option String × KV :=
  match value with
  | some v => if v = "" then (kvGet now kv key, kv) else (some v, kvPut kv key v none)
  | none => (kvGet now kv key, kv)

/-- Model of `validateDriveWebhook(expectedToken, receivedToken)` from
`src/helper.ts`: false when the received token is absent or empty or differs
from the expected one (a `null`/`undefined` expected token never equals a
string, so it also yields false). -/
def validateDriveWebhook (expectedToken receivedToken : Option String) : Bool :=
  match receivedToken with
  | none => false
  | some r => if r = "" then false else decide (expectedToken = some r)

/-! ## Token manager (`getValidAccessToken`, `refreshAccessToken`) -/

def LOCK_KEY : String := "accessTokenRefreshLock"

def LOCK_TTL_MS : Nat := 30000

def EARLY_REFRESH_MS : Nat := 60000

deriving instance DecidableEq for Except

/-- Parsed JSON body of a successful token-endpoint response. -/
structure RefreshResp where
  access_token : String
  expires_in : Nat
deriving DecidableEq

/-- Model of `refreshAccessToken(env)` from `src/helper.ts`.  The world
argument `resp` is `some` parsed body for an OK response and `none` for a
non-success response; thrown errors become `Except.error`. -/
def refreshAccessToken (now : Nat) (kv : KV) (resp : Option RefreshResp) :
    Except String RefreshResp :=
  let refreshToken := kvGet now kv "refreshToken"
  let clientId := kvGet now kv "google_client_id"
  let clientSecret := kvGet now kv "google_client_secret"
  if !optTruthy refreshToken then .error "No refresh token available"
  else if !optTruthy clientId then .error "No client ID available"
  else if !optTruthy clientSecret then .error "No client secret available"
  else
    match resp with
    | none => .error "Failed to refresh access token"
    | some r => .ok r

/-- The fast-path check `token && Date.now() < expiry - EARLY_REFRESH_MS`
of `getValidAccessToken`, with `expiry = Number(stored ?? 0)` (a NaN expiry
makes the comparison false). -/
def storedTokenFresh (now : Nat) (kv : KV) : Option String :=
  match kvGet now kv "accessToken" with
  | none => none
  | some t =>
    if t = "" then none
    else
      match jsNumOrZero (kvGet now kv "accessTokenExpiry") with
      | none => none
      | some expiry => if now < expiry - EARLY_REFRESH_MS then some t else none

/-- The contention check `lockTimestamp && now - Number(lockTimestamp) <
LOCK_TTL_MS`; NaN comparisons are false. -/
def lockHeld (now : Nat) (lockTimestamp : Option String) : Bool :=
  match lockTimestamp with
  | none => false
  | some s =>
    if s = "" then false
    else
      match jsNum s with
      | none => false
      | some ts => decide (now - ts < LOCK_TTL_MS)

/-- Model of `getValidAccessToken(env)` from `src/helper.ts`.  `fuel` bounds
the lock-wait recursion (the source recursion is bounded only by lock
expiry); `resp` is the refresh endpoint's response.  The result is the
returned value or thrown error, the updated store, and the clock at the
moment of return; `none` means the fuel ran out while waiting. -/
def getValidAccessToken : Nat → Nat → KV → Option RefreshResp →
    Option (Except String String × KV × Nat)
  | 0, _, _, _ => none
  | fuel+1, now, kv, resp =>
    match storedTokenFresh now kv with
    | some t => some (.ok t, kv, now)
    | none =>
      if lockHeld now (kvGet now kv LOCK_KEY) then
        getValidAccessToken fuel (now + 800) kv resp
      else
        let kv1 := kvPut kv LOCK_KEY (numStr now) (some (now + LOCK_TTL_MS))
        match refreshAccessToken now kv1 resp with
        | .ok r =>
          let kv2 := kvPut kv1 "accessToken" r.access_token none
          let kv3 := kvPut kv2 "accessTokenExpiry"
            (numStr (now + r.expires_in * 1000)) none
          some (.ok r.access_token, kvDelete kv3 LOCK_KEY, now)
        | .error e => some (.error e, kvDelete kv1 LOCK_KEY, now)

/-! ## Watch-channel subscribe call (`watchChannel`) -/

/-- The TS `WatchChannel` options type (fields as used by `watchChannel`). -/
structure WatchChannel where
  accessToken : String
  channelId : String
  expiration : Option Nat
  startPageToken : String
  webhookToken : String
  webhookUrl : String
deriving DecidableEq

/-- The subscribe call issued to `drive/v3/changes/watch`: query page token
plus JSON body fields.  `expiration` is `none` when the source would send a
NaN expiration. -/
structure WatchRequest where
  pageToken : String
  accessToken : String
  id : String
  address : String
  expiration : Option Nat
  token : String
deriving DecidableEq

/-- Model of `watchChannel(options)` from `src/helper.ts`: the request it
issues, as data (the response is supplied by the caller's world). -/
def watchChannel (options : WatchChannel) : WatchRequest :=
  { pageToken := options.startPageToken
    accessToken := options.accessToken
    id := options.channelId
    address := options.webhookUrl
    expiration := options.expiration
    token := options.webhookToken }

/-! ## Change fetcher (`fetchAndLogChanges`) -/

structure DriveFile where
  id : String
  name : String
  parents : Option (List String)
deriving DecidableEq

structure DriveChangeItem where
  file : Option DriveFile
deriving DecidableEq

/-- Parsed JSON of the change-listing response (`DriveChange` in the source). -/
structure DriveChange where
  changes : Option (List DriveChangeItem)
  newStartPageToken : Option String
deriving DecidableEq

/-- World for the change-listing endpoint: non-success body or parsed data. -/
inductive FetchResp where
  | failure (body : String)
  | success (data : DriveChange)
deriving DecidableEq

/-- Return type of `fetchAndLogChanges`: `DriveChange | string`. -/
inductive FetchResult where
  | strRes (s : String)
  | dataRes (d : DriveChange)
deriving DecidableEq

/-- The filter inside the change loop: files whose parent set includes the
tracked folder (the source merely logs these). -/
def matchedFiles (googleDriveFolderID : String) (changes : List DriveChangeItem) :
    List (String × String) :=
  changes.filterMap fun change =>
    match change.file with
    | none => none
    | some file =>
      match file.parents with
      | none => none
      | some ps =>
        if googleDriveFolderID ∈ ps then some (file.name, file.id) else none

/-- Model of `fetchAndLogChanges(env, accessToken, folderID, startPageToken?)`
from `src/helper.ts`. -/
def fetchAndLogChanges (now : Nat) (kv : KV) (accessToken : String)
    (googleDriveFolderID : String) (googleDriveStartPageToken : Option String)
    (resp : FetchResp) : FetchResult × KV :=
  let startPageToken :=
    match googleDriveStartPageToken with
    | some s => some s
    | none => kvGet now kv "google_drive_start_page_token"
  match startPageToken with
  | none => (.strRes "No startPageToken", kv)
  | some s =>
    if s = "" then (.strRes "No startPageToken", kv)
    else
      match resp with
      | .failure _ => (.strRes "Drive API error", kv)
      | .success data =>
        let _logged := matchedFiles googleDriveFolderID (data.changes.getD [])
        let kv' :=
          match data.newStartPageToken with
          | some t =>
            if t = "" then kv else kvPut kv "google_drive_start_page_token" t none
          | none => kv
        (.dataRes data, kv')

/-! ## Watch-channel renewal (`renewDriveWatchIfNeeded`) -/

def RENEW_THRESHOLD_MS : Nat := 3600000

inductive RenewOutcome where
  | noExpiration
  | stillValid
  | missingMetadata
  | missingWebhookToken
  | missingWebhookUrl
  | tokenError (e : String)
  | renewFailed (err : String)
  | renewed
deriving DecidableEq

/-- World for one renewal run: the fresh `crypto.randomUUID()` value, the
subscribe response (error body or the new channel's resource id), and the
token endpoint's response for the nested `getValidAccessToken`. -/
structure RenewWorld where
  newChannelId : String
  watchResp : Except String String
  refreshResp : Option RefreshResp

/-- Model of `renewDriveWatchIfNeeded(env)` from `src/helper.ts`.  Returns
the outcome, the updated store, and the subscribe request issued (if any);
`none` means fuel ran out inside `getValidAccessToken`.  The best-effort
stop call for the old channel has no observable effect on the store and is
not recorded. -/
def renewDriveWatchIfNeeded (fuel now : Nat) (kv : KV) (world : RenewWorld) :
    Option (RenewOutcome × KV × Option WatchRequest) :=
  match kvGet now kv "driveChannelExpiration" with
  | none => some (.noExpiration, kv, none)
  | some expirationStr =>
    if expirationStr = "" then some (.noExpiration, kv, none)
    else
      let expiration := jsNum expirationStr
      if (match expiration with
          | some e => decide (RENEW_THRESHOLD_MS < e - now)
          | none => false) then
        some (.stillValid, kv, none)
      else
        let channelId := kvGet now kv "driveChannelId"
        let resourceId := kvGet now kv "driveResourceId"
        let startPageToken := kvGet now kv "google_drive_start_page_token"
        let webhookUrl := kvGet now kv "worker_drive_webhook_url"
        let webhookToken := kvGet now kv "driveWebhookToken"
        match getValidAccessToken fuel now kv world.refreshResp with
        | none => none
        | some (.error e, kv1, _) => some (.tokenError e, kv1, none)
        | some (.ok accessToken, kv1, now1) =>
          if !optTruthy channelId || !optTruthy resourceId ||
              !optTruthy startPageToken || !optTruthy webhookUrl ||
              accessToken = "" then
            some (.missingMetadata, kv1, none)
          else if !optTruthy webhookToken then
            some (.missingWebhookToken, kv1, none)
          else if !optTruthy webhookUrl then
            some (.missingWebhookUrl, kv1, none)
          else
            let newChannelId := world.newChannelId
            let expirationMs := now1 + 24 * 60 * 60 * 1000
            let req := watchChannel
              { accessToken := accessToken
                channelId := channelId.getD ""
                expiration := expiration
                startPageToken := startPageToken.getD ""
                webhookToken := webhookToken.getD ""
                webhookUrl := webhookUrl.getD "" }
            match world.watchResp with
            | .error err => some (.renewFailed err, kv1, some req)
            | .ok resourceIdNew =>
              let kv2 := kvPut kv1 "driveChannelId" newChannelId none
              let kv3 := kvPut kv2 "driveResourceId" resourceIdNew none
              let kv4 := kvPut kv3 "driveChannelExpiration" (numStr expirationMs) none
              some (.renewed, kv4, some req)

/-! ## The `POST /drive/webhook` handler (`src/index.ts`) -/

/-- The request body after schema validation. -/
structure WebhookBody where
  drive_folder_id : String
  access_token : Option String
  drive_start_page_token : Option String
deriving DecidableEq

/-- The handler's possible responses. -/
inductive WebhookResult where
  | syncAck (state : String)
  | unauthorized
  | missingConfig
  | processed (result : FetchResult)
deriving DecidableEq

/-- HTTP status of each webhook-handler response. -/
def webhookStatus : WebhookResult → Nat
  | .syncAck _ => 200
  | .unauthorized => 401
  | .missingConfig => 400
  | .processed _ => 200

/-- The `message` field of each webhook-handler response. -/
def webhookMessage : WebhookResult → String
  | .syncAck _ => "Sync acknowledged"
  | .unauthorized => "Unauthorized webhook"
  | .missingConfig => "Missing required Drive configuration"
  | .processed _ => "Change processed"

/-- Model of the `POST /drive/webhook` handler.  `state` is the
`X-Goog-Resource-State` header, `channelToken` the `X-Goog-Channel-Token`
header, `resp` the change-listing endpoint's response.  (The handler's
catch-all branch is unreachable here: no modelled step throws.) -/
def driveWebhookHandler (now : Nat) (kv : KV) (state channelToken : Option String)
    (body : WebhookBody) (resp : FetchResp) : WebhookResult × KV :=
  if state = some "sync" then (.syncAck "sync", kv)
  else
    let expectedToken := kvGet now kv "driveWebhookToken"
    if !(validateDriveWebhook expectedToken channelToken) then (.unauthorized, kv)
    else
      let r1 := getOrUpdateKV now kv "drive_folder_id" (some body.drive_folder_id)
      let googleDriveFolderID := r1.1
      let r2 := getOrUpdateKV now r1.2 "drive_start_page_token" body.drive_start_page_token
      let googleDriveStartPageToken := r2.1
      let r3 := getOrUpdateKV now r2.2 "accessToken" body.access_token
      let accessToken := r3.1
      if !optTruthy accessToken || !optTruthy googleDriveFolderID ||
          !optTruthy googleDriveStartPageToken then
        (.missingConfig, r3.2)
      else
        let r4 := fetchAndLogChanges now r3.2 (accessToken.getD "")
          (googleDriveFolderID.getD "") googleDriveStartPageToken resp
        (.processed r4.1, r4.2)

/-! ## The `POST /drive/watch` handler (`src/index.ts`) -/

/-- The request body after schema validation. -/
structure WatchBody where
  access_token : Option String
  drive_start_page_token : Option String
  worker_drive_webhook_url : String
deriving DecidableEq

/-- The handler's possible responses. -/
inductive WatchHandlerResult where
  | insecureUrl
  | missingUrlOrToken
  | accessTokenRequired
  | watchFailed (err : String)
  | created (channelId : String) (resourceId : String) (expiration : Nat)
      (webhookToken : String)
  | handlerError (e : String)
deriving DecidableEq

/-- HTTP status of each watch-handler response. -/
def watchStatus : WatchHandlerResult → Nat
  | .insecureUrl => 400
  | .missingUrlOrToken => 400
  | .accessTokenRequired => 400
  | .watchFailed _ => 500
  | .created _ _ _ _ => 200
  | .handlerError _ => 500

/-- The `message` field of each watch-handler response. -/
def watchMessage : WatchHandlerResult → String
  | .insecureUrl => "Insecure webhook URL (http). Use https endpoint webhook URL."
  | .missingUrlOrToken => "Missing webhook URL or start page token"
  | .accessTokenRequired => "Access token is required"
  | .watchFailed _ => "Failed to create watch channel"
  | .created _ _ _ _ => "Drive watch channel created"
  | .handlerError _ => "Drive watch creation failed"

/-- World for one watch-creation run: the two `crypto.randomUUID()` values,
the subscribe response, and the token endpoint's response. -/
structure WatchWorld where
  channelUuid : String
  webhookTokenUuid : String
  watchResp : Except String String
  refreshResp : Option RefreshResp

/-- The access-token resolution of the watch handler:
`body.access_token || getValidAccessToken(env) || drive_kv.get("accessToken")`,
retried once via `getValidAccessToken` when still falsy.  `.ok none` means the
token stayed falsy (the handler then answers 400), `.error` a thrown refresh
failure (the handler's catch answers 500). -/
def resolveWatchAccessToken (fuel now : Nat) (kv : KV) (bodyToken : Option String)
    (resp : Option RefreshResp) : Option (Except String (Option String) × KV × Nat) :=
  if optTruthy bodyToken then some (.ok bodyToken, kv, now)
  else
    match getValidAccessToken fuel now kv resp with
    | none => none
    | some (.error e, kv1, now1) => some (.error e, kv1, now1)
    | some (.ok t, kv1, now1) =>
      if t ≠ "" then some (.ok (some t), kv1, now1)
      else
        let stored := kvGet now1 kv1 "accessToken"
        if optTruthy stored then some (.ok stored, kv1, now1)
        else
          match getValidAccessToken fuel now1 kv1 resp with
          | none => none
          | some (.error e, kv2, now2) => some (.error e, kv2, now2)
          | some (.ok t2, kv2, now2) =>
            some (.ok (if t2 = "" then none else some t2), kv2, now2)

/-- The scheme check of the watch handler: `env.ENVIRONMENT &&
env.ENVIRONMENT !== "development" && webhookUrl?.startsWith("http://")`. -/
def insecureWebhookUrl (environment webhookUrl : Option String) : Bool :=
  optTruthy environment && !(environment == some "development") &&
    (match webhookUrl with
     | some u => jsStartsWith u "http://"
     | none => false)

/-- Model of the `POST /drive/watch` handler.  `environment` is
`process.env.ENVIRONMENT`; `none` means fuel ran out inside the token wait
loop. -/
def driveWatchHandler (fuel now : Nat) (kv : KV) (environment : Option String)
    (body : WatchBody) (world : WatchWorld) : Option (WatchHandlerResult × KV) :=
  let r1 := getOrUpdateKV now kv "worker_drive_webhook_url"
    (some body.worker_drive_webhook_url)
  let webhookUrl := r1.1
  if insecureWebhookUrl environment webhookUrl then
    some (.insecureUrl, r1.2)
  else
    let r2 := getOrUpdateKV now r1.2 "drive_start_page_token"
      body.drive_start_page_token
    let startPageToken := r2.1
    if !optTruthy webhookUrl || !optTruthy startPageToken then
      some (.missingUrlOrToken, r2.2)
    else
      let expiration := now + 24 * 60 * 60 * 1000
      match resolveWatchAccessToken fuel now r2.2 body.access_token
        world.refreshResp with
      | none => none
      | some (.error e, kv3, _) => some (.handlerError e, kv3)
      | some (.ok none, kv3, _) => some (.accessTokenRequired, kv3)
      | some (.ok (some accessToken), kv3, _) =>
        let channelId := world.channelUuid
        let webhookToken := world.webhookTokenUuid
        let req := watchChannel
          { accessToken := accessToken
            channelId := channelId
            expiration := some expiration
            startPageToken := startPageToken.getD ""
            webhookToken := webhookToken
            webhookUrl := webhookUrl.getD "" }
        match world.watchResp with
        | .error err => some (.watchFailed err, kv3)
        | .ok resourceId =>
          let kv4 := kvPut kv3 "driveChannelId" channelId none
          let kv5 := kvPut kv4 "driveResourceId" resourceId none
          let kv6 := kvPut kv5 "driveChannelExpiration" (numStr expiration) none
          let kv7 := kvPut kv6 "driveWebhookToken" webhookToken none
          some (.created channelId resourceId expiration webhookToken, kv7)

/-! ## Interleaving model of concurrent `getValidAccessToken` callers

Each suspension point (`await`) of `getValidAccessToken` becomes one atomic
step of a thread-local program counter over a shared store.  The two reads
of the fast-path check are merged into one step and so are the two writes
after a refresh; the claim-relevant window — the separate lock read and
lock write — is kept as two distinct steps, exactly as in the source. -/

/-- Program counter of one concurrent `getValidAccessToken` caller. -/
inductive TPc where
  | checkToken
  | checkLock
  | acquireLock
  | doRefresh
  | persistToken (tok : String) (expiresIn : Nat)
  | releaseLock (result : Option String)
  | done (result : Option String)
deriving DecidableEq

/-- Shared state of an interleaved execution. -/
structure Config where
  kv : KV
  now : Nat
  threads : List TPc
  refreshCalls : Nat
deriving DecidableEq

/-- The prerequisites `refreshAccessToken` checks before calling the token
endpoint (refresh token and client credentials all truthy). -/
def refreshPrereqs (now : Nat) (kv : KV) : Bool :=
  optTruthy (kvGet now kv "refreshToken") &&
    optTruthy (kvGet now kv "google_client_id") &&
    optTruthy (kvGet now kv "google_client_secret")

/-- One atomic step of thread `i`; `resp` is the token endpoint's response
(shared world).  A sleeping thread advances the shared clock by its 800 ms
backoff and restarts the procedure, as the source recursion does. -/
def stepThread (resp : Option RefreshResp) (cfg : Config) (i : Nat) : Config :=
  match cfg.threads.get? i with
  | none => cfg
  | some pc =>
    match pc with
    | .done _ => cfg
    | .checkToken =>
      match storedTokenFresh cfg.now cfg.kv with
      | some t => { cfg with threads := cfg.threads.set i (.done (some t)) }
      | none => { cfg with threads := cfg.threads.set i .checkLock }
    | .checkLock =>
      if lockHeld cfg.now (kvGet cfg.now cfg.kv LOCK_KEY) then
        { cfg with now := cfg.now + 800, threads := cfg.threads.set i .checkToken }
      else
        { cfg with threads := cfg.threads.set i .acquireLock }
    | .acquireLock =>
      { cfg with
          kv := kvPut cfg.kv LOCK_KEY (numStr cfg.now) (some (cfg.now + LOCK_TTL_MS))
          threads := cfg.threads.set i .doRefresh }
    | .doRefresh =>
      if refreshPrereqs cfg.now cfg.kv then
        match resp with
        | some r =>
          { cfg with
              refreshCalls := cfg.refreshCalls + 1
              threads := cfg.threads.set i (.persistToken r.access_token r.expires_in) }
        | none =>
          { cfg with
              refreshCalls := cfg.refreshCalls + 1
              threads := cfg.threads.set i (.releaseLock none) }
      else
        { cfg with threads := cfg.threads.set i (.releaseLock none) }
    | .persistToken tok expiresIn =>
      { cfg with
          kv := kvPut (kvPut cfg.kv "accessToken" tok none) "accessTokenExpiry"
            (numStr (cfg.now + expiresIn * 1000)) none
          threads := cfg.threads.set i (.releaseLock (some tok)) }
    | .releaseLock result =>
      { cfg with
          kv := kvDelete cfg.kv LOCK_KEY
          threads := cfg.threads.set i (.done result) }

/-- Run a schedule (list of thread indices) from a configuration. -/
def runSched (resp : Option RefreshResp) (cfg : Config) (sched : List Nat) : Config :=
  sched.foldl (stepThread resp) cfg

/-! ## Concrete stores and worlds used by counterexamples and witnesses -/

/-- A store holding a complete watch-channel state whose channel is inside
the renewal threshold, plus a fresh access token (so renewal's token fetch
takes the fast path). -/
def renewStore : KV :=
  [⟨"driveChannelExpiration", "1000", none⟩,
   ⟨"driveChannelId", "old-chan", none⟩,
   ⟨"driveResourceId", "res1", none⟩,
   ⟨"google_drive_start_page_token", "pt", none⟩,
   ⟨"worker_drive_webhook_url", "https://x", none⟩,
   ⟨"driveWebhookToken", "oldtok", none⟩,
   ⟨"accessToken", "at", none⟩,
   ⟨"accessTokenExpiry", "100000000", none⟩]

/-- World for the concrete renewal run: fresh uuid `new-chan`, subscribe
succeeds with resource id `res2`; the token endpoint is never reached. -/
def renewWorld : RenewWorld := ⟨"new-chan", .ok "res2", none⟩

/-- A store holding an expired access token plus full refresh credentials. -/
def expiredTokenStore : KV :=
  [⟨"accessToken", "old", none⟩,
   ⟨"accessTokenExpiry", "5", none⟩,
   ⟨"refreshToken", "r", none⟩,
   ⟨"google_client_id", "i", none⟩,
   ⟨"google_client_secret", "s", none⟩]

/-- A store holding refresh credentials but no access token at all. -/
def credsOnlyStore : KV :=
  [⟨"refreshToken", "r", none⟩,
   ⟨"google_client_id", "i", none⟩,
   ⟨"google_client_secret", "s", none⟩]

/-- Two callers about to run `getValidAccessToken` against `credsOnlyStore`. -/
def twoCallers : Config := ⟨credsOnlyStore, 0, [.checkToken, .checkToken], 0⟩

/-- A store holding only the persisted webhook validation token. -/
def webhookTokenStore : KV := [⟨"driveWebhookToken", "valid_token", none⟩]

/-- The store left behind by the witness refresh run below. -/
def marginWitnessStore : KV :=
  [⟨"accessTokenExpiry", "4600000", none⟩,
   ⟨"accessToken", "new", none⟩,
   ⟨"refreshToken", "r", none⟩,
   ⟨"google_client_id", "i", none⟩,
   ⟨"google_client_secret", "s", none⟩]

/-- World used by the watch-creation witness run. -/
def watchWitnessWorld : WatchWorld := ⟨"u1", "u2", .ok "rid", none⟩

/-! ## Supporting lemmas -/

theorem natCharsAux_succ (f n : Nat) (acc : List Char) :
    natCharsAux (f + 1) n acc =
      if n < 10 then digitChar (n % 10) :: acc
      else natCharsAux f (n / 10) (digitChar (n % 10) :: acc) := rfl

theorem natChars_lt {n : Nat} (h : n < 10) : natChars n = [digitChar (n % 10)] := by
  show natCharsAux (n + 1) n [] = [digitChar (n % 10)]
  rw [natCharsAux_succ, if_pos h]

theorem natCharsAux_spec (n : Nat) : ∀ (fuel : Nat) (acc : List Char), n ≤ fuel →
    natCharsAux (fuel + 1) n acc = natChars n ++ acc := by
  induction n using Nat.strong_induction_on with
  | _ n ih =>
    intro fuel acc hf
    by_cases h : n < 10
    · rw [natCharsAux_succ, if_pos h, natChars_lt h]
      rfl
    · have h10 : 10 ≤ n := Nat.le_of_not_lt h
      obtain ⟨f, rfl⟩ : ∃ f, fuel = f + 1 := ⟨fuel - 1, by omega⟩
      have hdiv : n / 10 < n := Nat.div_lt_self (by omega) (by omega)
      have step2 : natChars n = natChars (n / 10) ++ [digitChar (n % 10)] := by
        calc natChars n = natCharsAux (n + 1) n [] := rfl
          _ = natCharsAux n (n / 10) [digitChar (n % 10)] := by
                rw [natCharsAux_succ, if_neg h]
          _ = natCharsAux ((n - 1) + 1) (n / 10) [digitChar (n % 10)] := by
                congr 1
                omega
          _ = natChars (n / 10) ++ [digitChar (n % 10)] :=
                ih (n / 10) hdiv (n - 1) [digitChar (n % 10)] (by omega)
      rw [natCharsAux_succ, if_neg h, ih (n / 10) hdiv f _ (by omega), step2,
        List.append_assoc]
      rfl

theorem natChars_ge {n : Nat} (h : 10 ≤ n) :
    natChars n = natChars (n / 10) ++ [digitChar (n % 10)] := by
  calc natChars n = natCharsAux (n + 1) n [] := rfl
    _ = natCharsAux n (n / 10) [digitChar (n % 10)] := by
          rw [natCharsAux_succ, if_neg (by omega)]
    _ = natCharsAux ((n - 1) + 1) (n / 10) [digitChar (n % 10)] := by
          congr 1
          omega
    _ = natChars (n / 10) ++ [digitChar (n % 10)] :=
          natCharsAux_spec (n / 10) (n - 1) [digitChar (n % 10)]
            (by omega)

theorem digitChar_isDigit {d : Nat} (h : d < 10) : (digitChar d).isDigit = true := by
  interval_cases d <;> decide

theorem toNat_digitChar {d : Nat} (h : d < 10) : (digitChar d).toNat - 48 = d := by
  interval_cases d <;> decide

theorem natChars_all_digits (n : Nat) : (natChars n).all Char.isDigit = true := by
  induction n using Nat.strong_induction_on with
  | _ n ih =>
    by_cases h : n < 10
    · rw [natChars_lt h]
      simp [digitChar_isDigit (show n % 10 < 10 by omega)]
    · rw [natChars_ge (Nat.le_of_not_lt h)]
      have hdiv : n / 10 < n := Nat.div_lt_self (by omega) (by omega)
      simp [List.all_append, ih (n / 10) hdiv,
        digitChar_isDigit (show n % 10 < 10 by omega)]

theorem natChars_ne_nil (n : Nat) : natChars n ≠ [] := by
  by_cases h : n < 10
  · rw [natChars_lt h]
    simp
  · rw [natChars_ge (Nat.le_of_not_lt h)]
    simp

theorem foldl_parseStep (n : Nat) : ∀ a : Nat,
    (natChars n).foldl parseStep a = a * 10 ^ (natChars n).length + n := by
  induction n using Nat.strong_induction_on with
  | _ n ih =>
    intro a
    by_cases h : n < 10
    · rw [natChars_lt h]
      simp only [List.foldl_cons, List.foldl_nil, List.length_cons,
        List.length_nil, Nat.zero_add, parseStep]
      rw [toNat_digitChar (show n % 10 < 10 by omega), Nat.mod_eq_of_lt h,
        pow_one]
    · have h10 : 10 ≤ n := Nat.le_of_not_lt h
      have hdiv : n / 10 < n := Nat.div_lt_self (by omega) (by omega)
      have hd : n / 10 * 10 + n % 10 = n := by omega
      rw [natChars_ge h10, List.foldl_append, ih (n / 10) hdiv a]
      simp only [List.foldl_cons, List.foldl_nil, List.length_append,
        List.length_cons, List.length_nil, Nat.zero_add, parseStep]
      rw [toNat_digitChar (show n % 10 < 10 by omega)]
      have expand : (a * 10 ^ (natChars (n / 10)).length + n / 10) * 10 + n % 10
          = a * 10 ^ ((natChars (n / 10)).length + 1) + (n / 10 * 10 + n % 10) := by
        ring
      rw [expand, hd]

theorem jsNum_numStr (n : Nat) : jsNum (numStr n) = some n := by
  have hdata : (numStr n).data = natChars n := rfl
  rw [jsNum, hdata, if_neg (natChars_ne_nil n)]
  rw [if_pos (natChars_all_digits n), foldl_parseStep n 0]
  simp

theorem numStr_ne_empty (n : Nat) : numStr n ≠ "" := by
  intro h
  exact natChars_ne_nil n (congrArg String.data h)

theorem kvGet_remove_same (now : Nat) (kv : KV) (k : String) :
    kvGet now (kvRemove kv k) k = none := by
  induction kv with
  | nil => rfl
  | cons e rest ih =>
    by_cases h : e.key = k
    · simpa [kvRemove, h] using ih
    · simpa [kvRemove, kvGet, h] using ih

theorem kvGet_remove_diff (now : Nat) (kv : KV) {k k' : String} (h : k' ≠ k) :
    kvGet now (kvRemove kv k) k' = kvGet now kv k' := by
  induction kv with
  | nil => rfl
  | cons e rest ih =>
    by_cases he : e.key = k
    · have hne : ¬ e.key = k' := by
        rw [he]
        exact fun hk => h hk.symm
      have h1 : kvRemove (e :: rest) k = kvRemove rest k := by
        simp [kvRemove, he]
      have h2 : kvGet now (e :: rest) k' = kvGet now rest k' := by
        simp [kvGet, hne]
      rw [h1, ih, h2]
    · have h1 : kvRemove (e :: rest) k = e :: kvRemove rest k := by
        simp [kvRemove, he]
      rw [h1]
      by_cases he' : e.key = k'
      · simp [kvGet, he']
      · simp [kvGet, he', ih]

theorem kvGet_put_same (now : Nat) (kv : KV) (k v : String) :
    kvGet now (kvPut kv k v none) k = some v := by
  simp [kvPut, kvGet]

theorem kvGet_put_ttl_live (now : Nat) (kv : KV) (k v : String) {t : Nat}
    (h : now < t) : kvGet now (kvPut kv k v (some t)) k = some v := by
  simp [kvPut, kvGet, h]

theorem kvGet_put_diff (now : Nat) (kv : KV) {k k' : String} (v : String)
    (exp : Option Nat) (h : k' ≠ k) :
    kvGet now (kvPut kv k v exp) k' = kvGet now kv k' := by
  have : ¬ k = k' := fun hk => h hk.symm
  simp [kvPut, kvGet, this, kvGet_remove_diff now kv h]

theorem kvGet_delete_same (now : Nat) (kv : KV) (k : String) :
    kvGet now (kvDelete kv k) k = none := kvGet_remove_same now kv k

theorem kvGet_delete_diff (now : Nat) (kv : KV) {k k' : String} (h : k' ≠ k) :
    kvGet now (kvDelete kv k) k' = kvGet now kv k' := kvGet_remove_diff now kv h

theorem isPrefixOf_append (l m : List Char) : List.isPrefixOf l (l ++ m) = true := by
  induction l with
  | nil => simp
  | cons a as ih => simp [List.isPrefixOf_cons₂, ih]

theorem jsStartsWith_same_prefix (p r : String) :
    jsStartsWith (p ++ r) p = true := by
  have : (p ++ r).data = p.data ++ r.data := rfl
  rw [jsStartsWith, this]
  exact isPrefixOf_append p.data r.data

theorem https_not_http (r : String) :
    jsStartsWith ("https://" ++ r) "http://" = false := by
  have h1 : ("https://" ++ r).data = "https://".data ++ r.data := rfl
  have h2 : ("https://".data : List Char) = ['h', 't', 't', 'p', 's', ':', '/', '/'] := rfl
  have h3 : ("http://".data : List Char) = ['h', 't', 't', 'p', ':', '/', '/'] := rfl
  rw [jsStartsWith, h1, h2, h3]
  simp [List.isPrefixOf]

theorem getValidAccessToken_unfold (fuel now : Nat) (kv : KV)
    (resp : Option RefreshResp) :
    getValidAccessToken (fuel + 1) now kv resp =
      (match storedTokenFresh now kv with
      | some t => some (.ok t, kv, now)
      | none =>
        if lockHeld now (kvGet now kv LOCK_KEY) then
          getValidAccessToken fuel (now + 800) kv resp
        else
          let kv1 := kvPut kv LOCK_KEY (numStr now) (some (now + LOCK_TTL_MS))
          match refreshAccessToken now kv1 resp with
          | .ok r =>
            let kv2 := kvPut kv1 "accessToken" r.access_token none
            let kv3 := kvPut kv2 "accessTokenExpiry"
              (numStr (now + r.expires_in * 1000)) none
            some (.ok r.access_token, kvDelete kv3 LOCK_KEY, now)
          | .error e => some (.error e, kvDelete kv1 LOCK_KEY, now)) := rfl

theorem storedTokenFresh_some {now : Nat} {kv : KV} {t : String}
    (h : storedTokenFresh now kv = some t) :
    kvGet now kv "accessToken" = some t ∧ t ≠ "" ∧
    ∃ e, jsNumOrZero (kvGet now kv "accessTokenExpiry") = some e ∧
      now < e - EARLY_REFRESH_MS := by
  unfold storedTokenFresh at h
  split at h
  · simp at h
  next t2 hA =>
    split at h
    · simp at h
    next ht2 =>
      split at h
      · simp at h
      next e hE =>
        split at h
        next harith =>
          cases h
          exact ⟨hA, ht2, e, hE, harith⟩
        · simp at h

theorem refreshAccessToken_some {now : Nat} {kv : KV} {resp : Option RefreshResp}
    {r : RefreshResp} (h : refreshAccessToken now kv resp = .ok r) :
    resp = some r := by
  cases resp with
  | none =>
    exfalso
    unfold refreshAccessToken at h
    simp only [] at h
    split_ifs at h <;> simp at h
  | some r2 =>
    unfold refreshAccessToken at h
    simp only [] at h
    split_ifs at h <;> simp at h
    rw [h]

theorem validateDriveWebhook_true {expected received : Option String}
    (h : validateDriveWebhook expected received = true) :
    ∃ r, received = some r ∧ r ≠ "" ∧ expected = some r := by
  cases received with
  | none => simp [validateDriveWebhook] at h
  | some r =>
    by_cases hr : r = ""
    · simp [validateDriveWebhook, hr] at h
    · simp only [validateDriveWebhook, if_neg hr, decide_eq_true_eq] at h
      exact ⟨r, rfl, hr, h⟩

theorem validateDriveWebhook_false {expected received : Option String}
    (h : received = none ∨ expected = none ∨ received ≠ expected) :
    validateDriveWebhook expected received = false := by
  cases hv : validateDriveWebhook expected received
  · rfl
  · obtain ⟨r, hr, hne, he⟩ := validateDriveWebhook_true hv
    rcases h with h | h | h
    · rw [hr] at h
      simp at h
    · rw [he] at h
      simp at h
    · rw [hr, he] at h
      exact absurd rfl h

/-! ## Claim theorems -/

/-- C10: `getOrUpdateKV` with a non-empty string stores it under the key and
returns it; with an absent, null, or empty-string value it leaves the store
unchanged and returns the previously persisted value (or null), so an
empty-string payload field never overwrites the persisted value. -/
theorem getOrUpdateKV_spec (now : Nat) (kv : KV) (key : String) :
    (∀ v : String, v ≠ "" →
      getOrUpdateKV now kv key (some v) = (some v, kvPut kv key v none) ∧
        kvGet now (getOrUpdateKV now kv key (some v)).2 key = some v) ∧
    getOrUpdateKV now kv key none = (kvGet now kv key, kv) ∧
    getOrUpdateKV now kv key (some "") = (kvGet now kv key, kv) := by
  refine ⟨fun v hv => ⟨?_, ?_⟩, rfl, by simp [getOrUpdateKV]⟩
  · simp [getOrUpdateKV, hv]
  · simp [getOrUpdateKV, hv, kvGet_put_same]

/-- C10 witness: a concrete write through `getOrUpdateKV`. -/
theorem getOrUpdateKV_spec_w :
    getOrUpdateKV 0 [] "k" (some "v") = (some "v", kvPut [] "k" "v" none) :=
  ((getOrUpdateKV_spec 0 [] "k").1 "v" (by decide)).1

/-- C6: a webhook request whose resource-state header is the sync signal is
acknowledged with status 200, a message containing "Sync" and state "sync",
and the store — in particular the page token, folder id and access token —
is untouched. -/
theorem webhook_sync_no_mutation (now : Nat) (kv : KV)
    (channelToken : Option String) (body : WebhookBody) (resp : FetchResp) :
    driveWebhookHandler now kv (some "sync") channelToken body resp
      = (.syncAck "sync", kv) ∧
    webhookStatus (driveWebhookHandler now kv (some "sync") channelToken body resp).1
      = 200 ∧
    hasSubstr (webhookMessage
      (driveWebhookHandler now kv (some "sync") channelToken body resp).1) "Sync"
      = true ∧
    kvGet now (driveWebhookHandler now kv (some "sync") channelToken body resp).2
        "drive_start_page_token" = kvGet now kv "drive_start_page_token" ∧
    kvGet now (driveWebhookHandler now kv (some "sync") channelToken body resp).2
        "drive_folder_id" = kvGet now kv "drive_folder_id" ∧
    kvGet now (driveWebhookHandler now kv (some "sync") channelToken body resp).2
        "accessToken" = kvGet now kv "accessToken" := by
  have h : driveWebhookHandler now kv (some "sync") channelToken body resp
      = (.syncAck "sync", kv) := by
    simp [driveWebhookHandler]
  rw [h]
  exact ⟨rfl, rfl,
    (by decide : hasSubstr (webhookMessage (.syncAck "sync")) "Sync" = true),
    rfl, rfl, rfl⟩

/-- C7: a successful change fetch carrying a successor page token replaces
the stored page token with it, whatever the change list contains; a failed
fetch leaves the store unchanged. -/
theorem fetch_page_token_advance (now : Nat) (kv : KV)
    (accessToken folderID s : String) (hs : s ≠ "")
    (data : DriveChange) (errBody : String) :
    (∀ t, data.newStartPageToken = some t → t ≠ "" →
      kvGet now (fetchAndLogChanges now kv accessToken folderID (some s)
          (.success data)).2 "google_drive_start_page_token" = some t) ∧
    (fetchAndLogChanges now kv accessToken folderID (some s)
      (.failure errBody)).2 = kv := by
  constructor
  · intro t ht htne
    simp [fetchAndLogChanges, hs, ht, htne, kvGet_put_same]
  · simp [fetchAndLogChanges, hs]

/-- C7 witness: stored token "T1" advances to the successor "T2"; the change
list is empty (nothing matched the folder). -/
theorem fetch_page_token_advance_w :
    kvGet 0 (fetchAndLogChanges 0 [⟨"google_drive_start_page_token", "T1", none⟩]
        "at" "folder" (some "T1") (.success ⟨some [], some "T2"⟩)).2
      "google_drive_start_page_token" = some "T2" :=
  (fetch_page_token_advance 0 [⟨"google_drive_start_page_token", "T1", none⟩]
    "at" "folder" "T1" (by decide) ⟨some [], some "T2"⟩ "e").1 "T2" rfl (by decide)

/-- C5: for a non-sync notification the handler answers 401 whenever the
presented channel token differs from the stored validation token or either
is absent — whatever the body says — and it gets past the validation gate
only when the two tokens are exactly equal. -/
theorem webhook_token_enforcement (now : Nat) (kv : KV)
    (state channelToken : Option String) (body : WebhookBody) (resp : FetchResp)
    (hstate : state ≠ some "sync") :
    ((channelToken = none ∨ kvGet now kv "driveWebhookToken" = none ∨
        channelToken ≠ kvGet now kv "driveWebhookToken") →
      webhookStatus (driveWebhookHandler now kv state channelToken body resp).1
        = 401) ∧
    (webhookStatus (driveWebhookHandler now kv state channelToken body resp).1
        ≠ 401 →
      ∃ t, channelToken = some t ∧
        kvGet now kv "driveWebhookToken" = some t) := by
  constructor
  · intro hmis
    have hv : validateDriveWebhook (kvGet now kv "driveWebhookToken") channelToken
        = false := by
      apply validateDriveWebhook_false
      rcases hmis with h | h | h
      · exact Or.inl h
      · exact Or.inr (Or.inl h)
      · exact Or.inr (Or.inr h)
    simp [driveWebhookHandler, hstate, hv, webhookStatus]
  · intro hS
    by_cases hv : validateDriveWebhook (kvGet now kv "driveWebhookToken")
        channelToken = true
    · obtain ⟨r, hr, hne, he⟩ := validateDriveWebhook_true hv
      exact ⟨r, hr, he⟩
    · exfalso
      apply hS
      rw [Bool.not_eq_true] at hv
      simp [driveWebhookHandler, hstate, hv, webhookStatus]

/-- C5 witness: stored token "valid_token", presented "invalid_token" on a
change notification is rejected with 401. -/
theorem webhook_token_enforcement_w :
    webhookStatus (driveWebhookHandler 0 webhookTokenStore (some "change")
      (some "invalid_token") ⟨"f", none, none⟩ (.failure "e")).1 = 401 :=
  (webhook_token_enforcement 0 webhookTokenStore (some "change")
    (some "invalid_token") ⟨"f", none, none⟩ (.failure "e") (by decide)).1
    (by decide)

/-- C4: any `getValidAccessToken` call that takes the lock-acquisition branch
(stale token, no live lock) terminates in that same frame with the lock key
absent from the resulting store — the deletion runs on the success and the
error path alike. -/
theorem lock_released_after_acquire (fuel now : Nat) (kv : KV)
    (resp : Option RefreshResp)
    (hstale : storedTokenFresh now kv = none)
    (hlock : lockHeld now (kvGet now kv LOCK_KEY) = false) :
    ∃ res kv', getValidAccessToken (fuel + 1) now kv resp
        = some (res, kv', now) ∧
      ∀ t, kvGet t kv' LOCK_KEY = none := by
  rw [getValidAccessToken_unfold, hstale]
  rw [hlock]
  simp only [Bool.false_eq_true, if_false]
  cases hr : refreshAccessToken now
      (kvPut kv LOCK_KEY (numStr now) (some (now + LOCK_TTL_MS))) resp with
  | ok r =>
    exact ⟨_, _, rfl, fun t => kvGet_delete_same t _ _⟩
  | error e =>
    exact ⟨_, _, rfl, fun t => kvGet_delete_same t _ _⟩

/-- C4 witness: a concrete acquiring call (empty token state, no lock,
refresh fails for lack of credentials) still ends with the lock key absent. -/
theorem lock_released_after_acquire_w :
    ∃ res kv', getValidAccessToken 1 0 [] none = some (res, kv', 0) ∧
      ∀ t, kvGet t kv' LOCK_KEY = none :=
  lock_released_after_acquire 0 0 [] none (by decide) (by decide)

/-- C2 counterexample: with an expired stored token and a refresh response
whose `expires_in` is 30 seconds, `getValidAccessToken` returns the token
"new" while the expiry it just recorded (1030000) is not greater than
`now + EARLY_REFRESH_MS` (1060000) — the claim fails as stated. -/
theorem short_expiry_refresh_cex :
    (getValidAccessToken 1 1000000 expiredTokenStore (some ⟨"new", 30⟩)).map
        (fun o => (o.1.toOption,
          jsNumOrZero (kvGet o.2.2 o.2.1 "accessTokenExpiry"), o.2.2))
      = some (some "new", some 1030000, 1000000) ∧
    ¬ (1000000 + EARLY_REFRESH_MS < 1030000) := by
  exact ⟨rfl, by decide⟩

/-- C2 (amended): provided every refresh response reports `expires_in`
above 60 seconds, any `getValidAccessToken` call that returns a token
leaves a recorded expiry strictly greater than the return-time clock plus
`EARLY_REFRESH_MS`. -/
theorem getValidAccessToken_expiry_margin :
    ∀ (fuel now : Nat) (kv : KV) (resp : Option RefreshResp) (tok : String)
      (kv2 : KV) (now2 : Nat),
    (∀ r, resp = some r → 60 < r.expires_in) →
    getValidAccessToken fuel now kv resp = some (.ok tok, kv2, now2) →
    ∃ e, jsNumOrZero (kvGet now2 kv2 "accessTokenExpiry") = some e ∧
      now2 + EARLY_REFRESH_MS < e := by
  intro fuel
  induction fuel with
  | zero =>
    intro now kv resp tok kv2 now2 hw heq
    simp [getValidAccessToken] at heq
  | succ fuel ih =>
    intro now kv resp tok kv2 now2 hw heq
    rw [getValidAccessToken_unfold] at heq
    cases hfresh : storedTokenFresh now kv with
    | some t =>
      rw [hfresh] at heq
      simp only [Option.some.injEq, Prod.mk.injEq, Except.ok.injEq] at heq
      obtain ⟨h1, h2, h3⟩ := heq
      subst h2
      subst h3
      obtain ⟨hA, htne, e, hE, hlt⟩ := storedTokenFresh_some hfresh
      exact ⟨e, hE, by omega⟩
    | none =>
      rw [hfresh] at heq
      cases hlock : lockHeld now (kvGet now kv LOCK_KEY) with
      | true =>
        rw [hlock] at heq
        simp only [if_true] at heq
        exact ih (now + 800) kv resp tok kv2 now2 hw heq
      | false =>
        rw [hlock] at heq
        simp only [Bool.false_eq_true, if_false] at heq
        cases hr : refreshAccessToken now
            (kvPut kv LOCK_KEY (numStr now) (some (now + LOCK_TTL_MS))) resp with
        | ok r =>
          rw [hr] at heq
          simp only [Option.some.injEq, Prod.mk.injEq, Except.ok.injEq] at heq
          obtain ⟨h1, h2, h3⟩ := heq
          subst h2
          subst h3
          have h60 := hw r (refreshAccessToken_some hr)
          refine ⟨now + r.expires_in * 1000, ?_, ?_⟩
          · rw [kvGet_delete_diff _ _ (show "accessTokenExpiry" ≠ LOCK_KEY by decide),
              kvGet_put_same]
            simp [jsNumOrZero, jsNum_numStr]
          · have hM : EARLY_REFRESH_MS = 60000 := rfl
            omega
        | error e2 =>
          rw [hr] at heq
          simp at heq

/-- C2 witness: a refresh with `expires_in = 3600` yields a recorded expiry
(4600000) with the full margin over the return-time clock (1000000). -/
theorem getValidAccessToken_expiry_margin_w :
    getValidAccessToken 1 1000000 expiredTokenStore (some ⟨"new", 3600⟩)
      = some (.ok "new", marginWitnessStore, 1000000) ∧
    ∃ e, jsNumOrZero (kvGet 1000000 marginWitnessStore "accessTokenExpiry")
        = some e ∧ 1000000 + EARLY_REFRESH_MS < e :=
  ⟨rfl, getValidAccessToken_expiry_margin 1 1000000 expiredTokenStore
    (some ⟨"new", 3600⟩) "new" marginWitnessStore 1000000
    (by intro r h; cases h; decide) rfl⟩

theorem append_ne_empty_left (p r : String) (hp : p.data ≠ []) : p ++ r ≠ "" := by
  intro h
  have hd : p.data ++ r.data = [] := congrArg String.data h
  exact hp (List.append_eq_nil.mp hd).1

/-- C8: in a configured non-development environment, watch creation with an
`http://` webhook URL is refused with a 400 response whose message contains
"Insecure", while the same call with an `https://` URL gets past the scheme
check (it can never produce the insecure-URL response). -/
theorem watch_scheme_check (fuel now : Nat) (kv : KV) (e : String)
    (he : e ≠ "") (hdev : e ≠ "development") (a p : Option String)
    (r r2 : String) (world : WatchWorld) :
    (driveWatchHandler fuel now kv (some e) ⟨a, p, "http://" ++ r⟩ world
        = some (.insecureUrl,
            kvPut kv "worker_drive_webhook_url" ("http://" ++ r) none) ∧
      watchStatus .insecureUrl = 400 ∧
      hasSubstr (watchMessage .insecureUrl) "Insecure" = true) ∧
    (∀ res, driveWatchHandler fuel now kv (some e) ⟨a, p, "https://" ++ r2⟩ world
        = some res → res.1 ≠ .insecureUrl) := by
  have hopt : ((some e : Option String) == some "development")
      = (e == "development") := rfl
  constructor
  · have hne1 : ("http://" ++ r : String) ≠ "" :=
      append_ne_empty_left _ _ (by decide)
    have hput : getOrUpdateKV now kv "worker_drive_webhook_url"
        (some ("http://" ++ r))
        = (some ("http://" ++ r),
            kvPut kv "worker_drive_webhook_url" ("http://" ++ r) none) := by
      simp [getOrUpdateKV, hne1]
    have hins : insecureWebhookUrl (some e) (some ("http://" ++ r)) = true := by
      simp [insecureWebhookUrl, optTruthy, hopt, he, hdev, jsStartsWith_same_prefix]
    refine ⟨?_, rfl, by decide⟩
    simp [driveWatchHandler, hput, hins]
  · intro res hres habs
    have hne2 : ("https://" ++ r2 : String) ≠ "" :=
      append_ne_empty_left _ _ (by decide)
    have hput2 : getOrUpdateKV now kv "worker_drive_webhook_url"
        (some ("https://" ++ r2))
        = (some ("https://" ++ r2),
            kvPut kv "worker_drive_webhook_url" ("https://" ++ r2) none) := by
      simp [getOrUpdateKV, hne2]
    have hins2 : insecureWebhookUrl (some e) (some ("https://" ++ r2)) = false := by
      simp [insecureWebhookUrl, https_not_http]
    simp only [driveWatchHandler, hput2, hins2, Bool.false_eq_true,
      if_false] at hres
    split at hres
    · cases hres
      simp at habs
    · split at hres
      · simp at hres
      · cases hres
        simp at habs
      · cases hres
        simp at habs
      · split at hres
        · cases hres
          simp at habs
        · cases hres
          simp at habs

/-- C8 witness: the rejected `http://example.com/webhook` call in a
production environment. -/
theorem watch_scheme_check_w :
    driveWatchHandler 1 0 [] (some "production")
        ⟨none, none, "http://" ++ "example.com/webhook"⟩ watchWitnessWorld
      = some (.insecureUrl, kvPut [] "worker_drive_webhook_url"
          ("http://" ++ "example.com/webhook") none) :=
  ((watch_scheme_check 1 0 [] "production" (by decide) (by decide) none none
    "example.com/webhook" "example.com/webhook" watchWitnessWorld).1).1

/-- C9 counterexample: a failed change-listing fetch during webhook
processing is answered with status 200 and message "Change processed",
carrying only the sentinel string "Drive API error" — not a 500 with the
upstream body ("quota exceeded" appears nowhere in the response). -/
theorem webhook_upstream_error_cex :
    (driveWebhookHandler 0 webhookTokenStore (some "change") (some "valid_token")
        ⟨"folder", some "at", some "pt"⟩ (.failure "quota exceeded")).1
      = .processed (.strRes "Drive API error") ∧
    webhookStatus (driveWebhookHandler 0 webhookTokenStore (some "change")
        (some "valid_token") ⟨"folder", some "at", some "pt"⟩
        (.failure "quota exceeded")).1 = 200 ∧
    webhookMessage (driveWebhookHandler 0 webhookTokenStore (some "change")
        (some "valid_token") ⟨"folder", some "at", some "pt"⟩
        (.failure "quota exceeded")).1 = "Change processed" ∧
    webhookStatus (driveWebhookHandler 0 webhookTokenStore (some "change")
        (some "valid_token") ⟨"folder", some "at", some "pt"⟩
        (.failure "quota exceeded")).1 ≠ 500 := by
  exact ⟨rfl, rfl, rfl, by decide⟩

/-- C9 (amended): when the change-listing endpoint fails during a validated,
fully configured webhook invocation, the handler reports success — status
200, message "Change processed" — with the sentinel string "Drive API error"
as the result; the upstream error body is only logged, and no retry happens
(the endpoint is consulted exactly once per invocation). -/
theorem webhook_upstream_error_shape (now : Nat) (kv : KV) (state : Option String)
    (t f a p errBody : String)
    (hstate : state ≠ some "sync")
    (htok : kvGet now kv "driveWebhookToken" = some t) (ht : t ≠ "")
    (hf : f ≠ "") (ha : a ≠ "") (hp : p ≠ "") :
    (driveWebhookHandler now kv state (some t) ⟨f, some a, some p⟩
        (.failure errBody)).1 = .processed (.strRes "Drive API error") ∧
    webhookStatus (driveWebhookHandler now kv state (some t) ⟨f, some a, some p⟩
        (.failure errBody)).1 = 200 := by
  have hv : validateDriveWebhook (kvGet now kv "driveWebhookToken") (some t)
      = true := by
    simp [validateDriveWebhook, htok, ht]
  refine ⟨?_, ?_⟩ <;>
    simp [driveWebhookHandler, hstate, hv, getOrUpdateKV, hf, ha, hp, optTruthy,
      fetchAndLogChanges, webhookStatus]

/-- C9 witness: a concrete validated invocation with a failing fetch. -/
theorem webhook_upstream_error_shape_w :
    (driveWebhookHandler 0 webhookTokenStore (some "change") (some "valid_token")
        ⟨"folder", some "at", some "pt"⟩ (.failure "boom")).1
      = .processed (.strRes "Drive API error") :=
  (webhook_upstream_error_shape 0 webhookTokenStore (some "change") "valid_token"
    "folder" "at" "pt" "boom" (by decide) (by decide) (by decide) (by decide)
    (by decide) (by decide)).1

/-- C1 (code bug, evaluated at the failing input): a due renewal with full
metadata subscribes the new channel under the old channel id ("old-chan")
while persisting the fresh uuid ("new-chan") as the stored channel id — the
two differ — and never generates or persists a new validation token: the
stored `driveWebhookToken` is still the old one. -/
theorem renew_channel_id_token_bug :
    (renewDriveWatchIfNeeded 1 0 renewStore renewWorld).map
        (fun o => (o.1, o.2.2.map (fun q => q.id), kvGet 0 o.2.1 "driveChannelId",
          kvGet 0 o.2.1 "driveWebhookToken"))
      = some (.renewed, some "old-chan", some "new-chan", some "oldtok") ∧
    ("old-chan" : String) ≠ "new-chan" ∧
    kvGet 0 renewStore "driveWebhookToken" = some "oldtok" := by
  exact ⟨rfl, by decide, rfl⟩

/-- C3 counterexample: two callers that both pass the lock check before
either writes the lock both refresh — the endpoint is called twice even
though the lock TTL (30 s) far exceeds the (instantaneous) refresh latency;
the store initially has credentials but no usable token. -/
theorem concurrent_refresh_race_cex :
    (runSched (some ⟨"tok", 3600⟩) twoCallers
        [0, 1, 0, 1, 0, 0, 0, 0, 1, 1, 1, 1]).refreshCalls = 2 ∧
    (runSched (some ⟨"tok", 3600⟩) twoCallers
        [0, 1, 0, 1, 0, 0, 0, 0, 1, 1, 1, 1]).threads
      = [.done (some "tok"), .done (some "tok")] ∧
    storedTokenFresh 0 credsOnlyStore = none ∧
    refreshPrereqs 0 credsOnlyStore = true := by
  exact ⟨rfl, rfl, rfl, rfl⟩

/-- C3 (amended): the advisory lock guarantees a single refresh only when no
two callers interleave between the lock read and the lock write; under a
schedule where the callers run without such interleaving (here: the first
caller runs to completion, then the second), exactly one call reaches the
refresh endpoint and both callers obtain the refreshed token. -/
theorem single_refresh_sequential (now : Nat) (kv : KV) (r : RefreshResp)
    (hstale : storedTokenFresh now kv = none)
    (hlock : lockHeld now (kvGet now kv LOCK_KEY) = false)
    (hpre : refreshPrereqs now kv = true)
    (ha : r.access_token ≠ "") (hei : 60 < r.expires_in) :
    (runSched (some r) ⟨kv, now, [.checkToken, .checkToken], 0⟩
        [0, 0, 0, 0, 0, 0, 1]).refreshCalls = 1 ∧
    (runSched (some r) ⟨kv, now, [.checkToken, .checkToken], 0⟩
        [0, 0, 0, 0, 0, 0, 1]).threads
      = [.done (some r.access_token), .done (some r.access_token)] := by
  have hpreL : refreshPrereqs now
      (kvPut kv LOCK_KEY (numStr now) (some (now + LOCK_TTL_MS))) = true := by
    unfold refreshPrereqs at hpre ⊢
    rw [kvGet_put_diff _ _ _ _ (show "refreshToken" ≠ LOCK_KEY by decide),
      kvGet_put_diff _ _ _ _ (show "google_client_id" ≠ LOCK_KEY by decide),
      kvGet_put_diff _ _ _ _ (show "google_client_secret" ≠ LOCK_KEY by decide)]
    exact hpre
  have g1 : kvGet now (kvDelete (kvPut (kvPut (kvPut kv LOCK_KEY (numStr now)
      (some (now + LOCK_TTL_MS))) "accessToken" r.access_token none)
      "accessTokenExpiry" (numStr (now + r.expires_in * 1000)) none) LOCK_KEY)
      "accessToken" = some r.access_token := by
    rw [kvGet_delete_diff _ _ (show "accessToken" ≠ LOCK_KEY by decide),
      kvGet_put_diff _ _ _ _ (show "accessToken" ≠ "accessTokenExpiry" by decide),
      kvGet_put_same]
  have g2 : kvGet now (kvDelete (kvPut (kvPut (kvPut kv LOCK_KEY (numStr now)
      (some (now + LOCK_TTL_MS))) "accessToken" r.access_token none)
      "accessTokenExpiry" (numStr (now + r.expires_in * 1000)) none) LOCK_KEY)
      "accessTokenExpiry" = some (numStr (now + r.expires_in * 1000)) := by
    rw [kvGet_delete_diff _ _ (show "accessTokenExpiry" ≠ LOCK_KEY by decide),
      kvGet_put_same]
  have harith : now < now + r.expires_in * 1000 - EARLY_REFRESH_MS := by
    have hM : EARLY_REFRESH_MS = 60000 := rfl
    omega
  have hfresh2 : storedTokenFresh now (kvDelete (kvPut (kvPut (kvPut kv LOCK_KEY
      (numStr now) (some (now + LOCK_TTL_MS))) "accessToken" r.access_token none)
      "accessTokenExpiry" (numStr (now + r.expires_in * 1000)) none) LOCK_KEY)
      = some r.access_token := by
    simp [storedTokenFresh, g1, g2, ha, jsNumOrZero, jsNum_numStr, harith]
  have s1 : stepThread (some r) ⟨kv, now, [.checkToken, .checkToken], 0⟩ 0
      = ⟨kv, now, [.checkLock, .checkToken], 0⟩ := by
    simp [stepThread, hstale, List.get?, List.set]
  have s2 : stepThread (some r) ⟨kv, now, [.checkLock, .checkToken], 0⟩ 0
      = ⟨kv, now, [.acquireLock, .checkToken], 0⟩ := by
    simp [stepThread, hlock, List.get?, List.set]
  have s3 : stepThread (some r) ⟨kv, now, [.acquireLock, .checkToken], 0⟩ 0
      = ⟨kvPut kv LOCK_KEY (numStr now) (some (now + LOCK_TTL_MS)), now,
          [.doRefresh, .checkToken], 0⟩ := by
    simp [stepThread, List.get?, List.set]
  have s4 : stepThread (some r) ⟨kvPut kv LOCK_KEY (numStr now)
        (some (now + LOCK_TTL_MS)), now, [.doRefresh, .checkToken], 0⟩ 0
      = ⟨kvPut kv LOCK_KEY (numStr now) (some (now + LOCK_TTL_MS)), now,
          [.persistToken r.access_token r.expires_in, .checkToken], 1⟩ := by
    simp [stepThread, hpreL, List.get?, List.set]
  have s5 : stepThread (some r) ⟨kvPut kv LOCK_KEY (numStr now)
        (some (now + LOCK_TTL_MS)), now,
        [.persistToken r.access_token r.expires_in, .checkToken], 1⟩ 0
      = ⟨kvPut (kvPut (kvPut kv LOCK_KEY (numStr now) (some (now + LOCK_TTL_MS)))
            "accessToken" r.access_token none) "accessTokenExpiry"
            (numStr (now + r.expires_in * 1000)) none, now,
          [.releaseLock (some r.access_token), .checkToken], 1⟩ := by
    simp [stepThread, List.get?, List.set]
  have s6 : stepThread (some r) ⟨kvPut (kvPut (kvPut kv LOCK_KEY (numStr now)
        (some (now + LOCK_TTL_MS))) "accessToken" r.access_token none)
        "accessTokenExpiry" (numStr (now + r.expires_in * 1000)) none, now,
        [.releaseLock (some r.access_token), .checkToken], 1⟩ 0
      = ⟨kvDelete (kvPut (kvPut (kvPut kv LOCK_KEY (numStr now)
            (some (now + LOCK_TTL_MS))) "accessToken" r.access_token none)
            "accessTokenExpiry" (numStr (now + r.expires_in * 1000)) none) LOCK_KEY,
          now, [.done (some r.access_token), .checkToken], 1⟩ := by
    simp [stepThread, List.get?, List.set]
  have s7 : stepThread (some r) ⟨kvDelete (kvPut (kvPut (kvPut kv LOCK_KEY
        (numStr now) (some (now + LOCK_TTL_MS))) "accessToken" r.access_token none)
        "accessTokenExpiry" (numStr (now + r.expires_in * 1000)) none) LOCK_KEY,
        now, [.done (some r.access_token), .checkToken], 1⟩ 1
      = ⟨kvDelete (kvPut (kvPut (kvPut kv LOCK_KEY (numStr now)
            (some (now + LOCK_TTL_MS))) "accessToken" r.access_token none)
            "accessTokenExpiry" (numStr (now + r.expires_in * 1000)) none) LOCK_KEY,
          now, [.done (some r.access_token), .done (some r.access_token)], 1⟩ := by
    simp [stepThread, hfresh2, List.get?, List.set]
  have hrun : runSched (some r) ⟨kv, now, [.checkToken, .checkToken], 0⟩
      [0, 0, 0, 0, 0, 0, 1]
      = ⟨kvDelete (kvPut (kvPut (kvPut kv LOCK_KEY (numStr now)
            (some (now + LOCK_TTL_MS))) "accessToken" r.access_token none)
            "accessTokenExpiry" (numStr (now + r.expires_in * 1000)) none) LOCK_KEY,
          now, [.done (some r.access_token), .done (some r.access_token)], 1⟩ := by
    simp only [runSched, List.foldl_cons, List.foldl_nil]
    rw [s1, s2, s3, s4, s5, s6, s7]
  exact ⟨by rw [hrun], by rw [hrun]⟩

/-- C3 witness: the sequential schedule on the concrete credential store
performs exactly one refresh. -/
theorem single_refresh_sequential_w :
    (runSched (some ⟨"tok", 3600⟩)
        ⟨credsOnlyStore, 0, [.checkToken, .checkToken], 0⟩
        [0, 0, 0, 0, 0, 0, 1]).refreshCalls = 1 :=
  (single_refresh_sequential 0 credsOnlyStore ⟨"tok", 3600⟩ (by decide)
    (by decide) (by decide) (by decide) (by decide)).1

end DriveWebhook
